import Mathlib

/-!
Shallow embedding of the resilient synchronized API client of the
Prompt-Pal app: the axios client configuration (request interceptor,
response interceptor, axios-retry policy) and the SyncManager
(retrying sync cycle, online/offline flag, offline action queue).

Sources embedded:
  - the api module (axios instance, axiosRetry config, request and
    response interceptors)
  - PromptPal/src/lib/syncManager.ts (SyncManager class)
-/

namespace PromptPal

namespace Api

/-- A request configuration, as far as the interceptors inspect and
mutate it: the url, the Authorization header slot, and the mutable
one-shot retried-after-auth marker stored on the config. -/
structure ReqConfig where
  url : Option String
  authHeader : Option String
  retryFlag : Bool
  deriving Repr, DecidableEq

/-- An axios error as inspected by the response interceptor and the
retry condition: the response status when a response was received
(otherwise a network-level failure), the transport error code, the
request method, and the originating request config. -/
structure ApiError where
  status : Option Nat
  code : Option String
  method : Option String
  config : ReqConfig
  deriving Repr, DecidableEq

/-! ### axios-retry policy

The axios-retry configuration of the client is
  retries := 3, retryDelay := exponentialDelay,
  retryCondition := isNetworkOrIdempotentRequestError or status >= 500
                    or status = 429.
The predicates below embed the external axios-retry library functions
the configuration delegates to; `retryAllowed` abstracts the external
per-error-code allowlist check the library consults for network
errors (a function of the error, kept as a parameter). -/

/-- The retry count configured on the client. -/
def apiRetries : Nat := 3

/-- axios-retry isNetworkError: no response was received, a transport
error code is present, the code is not a cancellation or timeout code,
and the external allowlist check accepts the error. -/
def isNetworkError (retryAllowed : ApiError → Bool) (e : ApiError) : Bool :=
  e.status.isNone &&
  e.code.isSome &&
  !(e.code = some "ERR_CANCELED") &&
  !(e.code = some "ECONNABORTED") &&
  retryAllowed e

/-- axios-retry safe HTTP methods. -/
def SAFE_HTTP_METHODS : List String := ["get", "head", "options"]

/-- axios-retry idempotent HTTP methods. -/
def IDEMPOTENT_HTTP_METHODS : List String := SAFE_HTTP_METHODS ++ ["put", "delete"]

/-- axios-retry isRetryableError: not a timeout, and either no response
was received or the response status is in 500..599. -/
def isRetryableError (e : ApiError) : Bool :=
  !(e.code = some "ECONNABORTED") &&
  (e.status.isNone ||
    (match e.status with
     | some s => decide (500 ≤ s) && decide (s ≤ 599)
     | none => false))

/-- axios-retry isIdempotentRequestError: a retryable error on a
request whose method is idempotent. -/
def isIdempotentRequestError (e : ApiError) : Bool :=
  match e.method with
  | none => false
  | some m => isRetryableError e && decide (m ∈ IDEMPOTENT_HTTP_METHODS)

/-- axios-retry isNetworkOrIdempotentRequestError. -/
def isNetworkOrIdempotentRequestError (retryAllowed : ApiError → Bool) (e : ApiError) : Bool :=
  isNetworkError retryAllowed e || isIdempotentRequestError e

/-- The retryCondition passed to axiosRetry in the api module: retry on
network or idempotent-request errors, on any 5xx response, and on
HTTP 429. -/
def retryCondition (retryAllowed : ApiError → Bool) (e : ApiError) : Bool :=
  isNetworkOrIdempotentRequestError retryAllowed e ||
  (match e.status with
   | some s => decide (500 ≤ s)
   | none => false) ||
  decide (e.status = some 429)

/-- axios-retry exponentialDelay: 2 ^ retryNumber * 100 milliseconds
plus a random jitter of delay * 0.2 * rand with rand drawn from [0, 1);
the random sample is passed explicitly here. -/
def exponentialDelay (retryNumber : Nat) (rand : ℚ) : ℚ :=
  let delay : ℚ := 2 ^ retryNumber * 100
  delay + delay * (1 / 5) * rand

/-! ### Request interceptor

The request interceptor obtains a token from the registered token
provider when one is set, otherwise from the token cache, attaches it
as a Bearer Authorization header when present, and catches (and logs)
any error thrown while obtaining the token, returning the config
unchanged in that case.  A token source is modelled as the settled
result of its promise: it either throws or yields a token-or-null. -/

/-- Result of awaiting a token source: the promise rejected, or it
resolved with a token or null. -/
abbrev TokenResult := Except Unit (Option String)

/-- The request interceptor of the api client.  `provider` is the
registered token provider when one is set (carrying its settled
result); `cache` is the settled result of the token cache lookup used
as fallback.  Returns the config passed on to transmission together
with a flag recording whether a token-acquisition error was caught and
logged. -/
def requestInterceptor (provider : Option TokenResult) (cache : TokenResult)
    (config : ReqConfig) : ReqConfig × Bool :=
  let tokenRes := match provider with
    | some p => p
    | none => cache
  match tokenRes with
  | Except.error _ => (config, true)
  | Except.ok none => (config, false)
  | Except.ok (some t) => ({ config with authHeader := some ("Bearer " ++ t) }, false)

/-! ### Response interceptor -/

/-- Outcome of the response interceptor on an error: either the
original request is resent with an updated config, or the promise is
rejected with an error. -/
inductive InterceptorOutcome where
  | resend (cfg : ReqConfig)
  | reject (e : ApiError)
  deriving Repr, DecidableEq

/-- Side effects the response interceptor performed: whether the token
refresh was invoked, whether the forced sign-out was triggered, whether
the 401 was recorded for diagnostics, whether a refresh error was
logged, and whether the generic error log of the else-branch ran. -/
structure SideEffects where
  refreshInvoked : Bool
  signOutInvoked : Bool
  record401Called : Bool
  refreshErrorLogged : Bool
  genericErrorLogged : Bool
  deriving Repr, DecidableEq

/-- The response interceptor error handler of the api client.
`refresh` is the settled result of tryRefreshToken (thrown error, or
token-or-null).  On a 401 whose config has not yet been retried after
auth, it records the 401, marks the config retried, and either resends
with the refreshed token or (when the refresh throws or yields no
token) triggers sign-out and rejects with the original error.  Any
other error (including a second 401 on an already-retried config) is
logged and rejected unchanged. -/
def responseInterceptor (e : ApiError) (refresh : TokenResult) :
    InterceptorOutcome × SideEffects :=
  if e.status = some 401 ∧ e.config.retryFlag = false then
    let rec401 := match e.config.url with
      | some u => u ≠ ""
      | none => false
    let retried := { e.config with retryFlag := true }
    match refresh with
    | Except.ok (some newToken) =>
        (InterceptorOutcome.resend { retried with authHeader := some ("Bearer " ++ newToken) },
         { refreshInvoked := true, signOutInvoked := false, record401Called := rec401,
           refreshErrorLogged := false, genericErrorLogged := false })
    | Except.ok none =>
        (InterceptorOutcome.reject e,
         { refreshInvoked := true, signOutInvoked := true, record401Called := rec401,
           refreshErrorLogged := false, genericErrorLogged := false })
    | Except.error _ =>
        (InterceptorOutcome.reject e,
         { refreshInvoked := true, signOutInvoked := true, record401Called := rec401,
           refreshErrorLogged := true, genericErrorLogged := false })
  else
    (InterceptorOutcome.reject e,
     { refreshInvoked := false, signOutInvoked := false, record401Called := false,
       refreshErrorLogged := false, genericErrorLogged := true })

end Api

namespace SyncManager

/-- MAX_SYNC_RETRIES constant of syncManager.ts. -/
def MAX_SYNC_RETRIES : Nat := 3

/-- SYNC_RETRY_DELAY_MS constant of syncManager.ts (milliseconds). -/
def SYNC_RETRY_DELAY_MS : Nat := 1000

/-- The mutable static state of SyncManager inspected by the claims:
the in-progress guard and the online flag. -/
structure SMState where
  syncInProgress : Bool
  isOnline : Bool
  deriving Repr, DecidableEq

/-- Observable outcome of one performSync invocation: whether the call
finally threw (rejected) after exhausting retries, how many times the
underlying progress-update call ran, the backoff delays awaited in
order, and whether the online flag was set to false. -/
structure SyncOutcome where
  threw : Bool
  attempts : Nat
  delays : List Nat
  setOffline : Bool
  deriving Repr, DecidableEq

/-- Recursion core of performSync.  `backend n` is the settled outcome
of the n-th (0-based) updateUserProgressStats call of this cycle
(true = resolved, false = rejected).  The source guard is
retryCount < MAX_SYNC_RETRIES; it is represented structurally by
`fuel = MAX_SYNC_RETRIES - retryCount`, so fuel = 0 exactly when the
guard fails and the recursive call keeps the correspondence. -/
def performSyncAux (backend : Nat → Bool) (retryCount fuel : Nat) : SyncOutcome :=
  if backend retryCount then
    { threw := false, attempts := 1, delays := [], setOffline := false }
  else
    match fuel with
    | f + 1 =>
        let rest := performSyncAux backend (retryCount + 1) f
        { rest with
            attempts := rest.attempts + 1,
            delays := SYNC_RETRY_DELAY_MS * (retryCount + 1) :: rest.delays }
    | 0 => { threw := true, attempts := 1, delays := [], setOffline := true }

/-- performSync of syncManager.ts: attempt the progress-update call;
on failure, while retryCount < MAX_SYNC_RETRIES, wait
SYNC_RETRY_DELAY_MS * (retryCount + 1) and recurse with
retryCount + 1; once retries are exhausted, set the online flag to
false and rethrow. -/
def performSync (backend : Nat → Bool) (retryCount : Nat) : SyncOutcome :=
  performSyncAux backend retryCount (MAX_SYNC_RETRIES - retryCount)

/-- Result of one syncUserProgress call: the SyncManager state after
the call and the number of network (progress-update) calls performed. -/
structure CycleResult where
  state : SMState
  calls : Nat
  deriving Repr, DecidableEq

/-- syncUserProgress of syncManager.ts.  Returns Except to model
promise settlement: ok means the returned promise resolved.  When the
in-progress guard is set, or the manager is offline, it returns at
once with no network call.  Otherwise it sets the guard, runs
performSync, catches (logs and swallows) any error, and clears the
guard in the finally block. -/
def syncUserProgress (backend : Nat → Bool) (s : SMState) : Except Unit CycleResult :=
  if s.syncInProgress then
    Except.ok { state := s, calls := 0 }
  else if s.isOnline = false then
    Except.ok { state := s, calls := 0 }
  else
    let out := performSync backend 0
    let after : SMState :=
      { syncInProgress := false,
        isOnline := if out.setOffline then false else s.isOnline }
    if out.threw then
      Except.ok { state := after, calls := out.attempts }
    else
      Except.ok { state := after, calls := out.attempts }

/-- setOnlineStatus of syncManager.ts: record the new online flag and,
when coming back online from offline, trigger one immediate
syncUserProgress. -/
def setOnlineStatus (backend : Nat → Bool) (online : Bool) (s : SMState) :
    Except Unit CycleResult :=
  let wasOffline := !s.isOnline
  let s1 : SMState := { s with isOnline := online }
  if online && wasOffline then
    syncUserProgress backend s1
  else
    Except.ok { state := s1, calls := 0 }

/-- An entry of the persisted offline queue: endpoint, payload (kept
opaque), and enqueue timestamp. -/
structure QueueEntry where
  endpoint : String
  payload : String
  timestamp : Nat
  deriving Repr, DecidableEq

/-- Loop body of processOfflineQueue: attempt each action in list
order with `net` (the settled outcome of api.post on that entry);
a failing entry is logged and the loop continues.  Returns the entries
attempted, in order, and the entries whose failure was logged, in
order. -/
def drainLoop (net : QueueEntry → Bool) : List QueueEntry → List QueueEntry × List QueueEntry
  | [] => ([], [])
  | a :: rest =>
      let r := drainLoop net rest
      (a :: r.1, if net a then r.2 else a :: r.2)

/-- processOfflineQueue of syncManager.ts.  `storage` is the persisted
queue under the offline_queue key (none when the key is absent).
When absent, return immediately; otherwise attempt every entry in
order and then delete the key unconditionally.  Returns the storage
after the call, the attempted entries in order, and the error-logged
entries in order. -/
def processOfflineQueue (net : QueueEntry → Bool) (storage : Option (List QueueEntry)) :
    Option (List QueueEntry) × List QueueEntry × List QueueEntry :=
  match storage with
  | none => (none, [], [])
  | some actions =>
      let r := drainLoop net actions
      (none, r.1, r.2)

end SyncManager

end PromptPal

open PromptPal

/-- C1: for every request whose retried-after-auth flag is already set and
which receives a second HTTP 401 response, the client rejects with the 401
error without invoking the token refresh and without resending; and every
resend produced by the interceptor carries the retried-after-auth flag,
so an original call is resent at most once after an auth failure. -/
theorem second_401_surfaced_without_refresh :
    (∀ (e : Api.ApiError) (refresh : Api.TokenResult),
        e.status = some 401 → e.config.retryFlag = true →
        Api.responseInterceptor e refresh =
          (Api.InterceptorOutcome.reject e,
           { refreshInvoked := false, signOutInvoked := false, record401Called := false,
             refreshErrorLogged := false, genericErrorLogged := true })) ∧
    (∀ (e : Api.ApiError) (refresh : Api.TokenResult) (cfg : Api.ReqConfig)
        (eff : Api.SideEffects),
        Api.responseInterceptor e refresh = (Api.InterceptorOutcome.resend cfg, eff) →
        cfg.retryFlag = true) := by
  constructor
  · intro e refresh h1 h2
    simp [Api.responseInterceptor, h1, h2]
  · intro e refresh cfg eff h
    unfold Api.responseInterceptor at h
    split at h
    · rcases refresh with _ | t
      · simp at h
      · rcases t with _ | t
        · simp at h
        · simp at h
          rcases h with ⟨h1, -⟩
          rw [← h1]
    · simp at h

/-- Witness for C1 at a concrete already-retried 401 error. -/
theorem second_401_surfaced_without_refresh_witness :
    Api.responseInterceptor
      { status := some 401, code := none, method := some "get",
        config := { url := some "/user/progress", authHeader := none, retryFlag := true } }
      (Except.ok (some "tok")) =
      (Api.InterceptorOutcome.reject
        { status := some 401, code := none, method := some "get",
          config := { url := some "/user/progress", authHeader := none, retryFlag := true } },
       { refreshInvoked := false, signOutInvoked := false, record401Called := false,
         refreshErrorLogged := false, genericErrorLogged := true }) :=
  second_401_surfaced_without_refresh.1 _ _ rfl rfl

/-- C2: on a first 401, if the token refresh throws or returns no token,
the interceptor triggers the forced sign-out and rejects with the
original 401 error; when the refresh throws, the refresh error is
logged rather than surfaced. -/
theorem refresh_failure_triggers_sign_out :
    ∀ (e : Api.ApiError), e.status = some 401 → e.config.retryFlag = false →
      (Api.responseInterceptor e (Except.error ())).1 = Api.InterceptorOutcome.reject e ∧
      (Api.responseInterceptor e (Except.error ())).2.signOutInvoked = true ∧
      (Api.responseInterceptor e (Except.error ())).2.refreshInvoked = true ∧
      (Api.responseInterceptor e (Except.error ())).2.refreshErrorLogged = true ∧
      (Api.responseInterceptor e (Except.ok none)).1 = Api.InterceptorOutcome.reject e ∧
      (Api.responseInterceptor e (Except.ok none)).2.signOutInvoked = true ∧
      (Api.responseInterceptor e (Except.ok none)).2.refreshInvoked = true := by
  intro e h1 h2
  simp [Api.responseInterceptor, h1, h2]

/-- Witness for C2 at a concrete first-401 error. -/
theorem refresh_failure_triggers_sign_out_witness :
    (Api.responseInterceptor
        { status := some 401, code := none, method := some "put",
          config := { url := some "/user/progress", authHeader := none, retryFlag := false } }
        (Except.error ())).2.signOutInvoked = true :=
  (refresh_failure_triggers_sign_out _ rfl rfl).2.1

/-- C3: the retry policy retries network-level errors, any 5xx response
and HTTP 429; it never retries another 4xx response; the configured
retry count is 3; and the exponential backoff delay doubles per
attempt (for any fixed jitter sample). -/
theorem transport_retry_policy :
    (∀ (ra : Api.ApiError → Bool) (e : Api.ApiError),
        Api.isNetworkError ra e = true → Api.retryCondition ra e = true) ∧
    (∀ (ra : Api.ApiError → Bool) (e : Api.ApiError) (s : Nat),
        e.status = some s → 500 ≤ s → Api.retryCondition ra e = true) ∧
    (∀ (ra : Api.ApiError → Bool) (e : Api.ApiError),
        e.status = some 429 → Api.retryCondition ra e = true) ∧
    (∀ (ra : Api.ApiError → Bool) (e : Api.ApiError) (s : Nat),
        e.status = some s → 400 ≤ s → s < 500 → s ≠ 429 →
        Api.retryCondition ra e = false) ∧
    Api.apiRetries = 3 ∧
    (∀ (n : Nat) (rand : ℚ),
        Api.exponentialDelay (n + 1) rand = 2 * Api.exponentialDelay n rand) := by
  refine ⟨?_, ?_, ?_, ?_, rfl, ?_⟩
  · intro ra e h
    simp [Api.retryCondition, Api.isNetworkOrIdempotentRequestError, h]
  · intro ra e s h1 h2
    simp [Api.retryCondition, h1, h2]
  · intro ra e h
    simp [Api.retryCondition, h]
  · intro ra e s h1 h2 h3 h4
    have hs1 : ¬ (500 ≤ s) := by omega
    cases hm : e.method with
    | none =>
        simp [Api.retryCondition, Api.isNetworkOrIdempotentRequestError, Api.isNetworkError,
              Api.isIdempotentRequestError, Api.isRetryableError, h1, hs1, hm]
        all_goals omega
    | some m =>
        simp [Api.retryCondition, Api.isNetworkOrIdempotentRequestError, Api.isNetworkError,
              Api.isIdempotentRequestError, Api.isRetryableError, h1, hs1, hm]
        all_goals omega
  · intro n rand
    simp [Api.exponentialDelay]
    ring

/-- Witness for C3 at concrete errors: a network error, a 503, a 429
(each retried) and a 404 (not retried). -/
theorem transport_retry_policy_witness :
    Api.retryCondition (fun _ => true)
      { status := none, code := some "ECONNRESET", method := some "put",
        config := { url := none, authHeader := none, retryFlag := false } } = true ∧
    Api.retryCondition (fun _ => false)
      { status := some 503, code := none, method := some "post",
        config := { url := none, authHeader := none, retryFlag := false } } = true ∧
    Api.retryCondition (fun _ => false)
      { status := some 429, code := none, method := some "post",
        config := { url := none, authHeader := none, retryFlag := false } } = true ∧
    Api.retryCondition (fun _ => false)
      { status := some 404, code := none, method := some "get",
        config := { url := none, authHeader := none, retryFlag := false } } = false :=
  ⟨transport_retry_policy.1 _ _ (by decide),
   transport_retry_policy.2.1 _ _ 503 rfl (by decide),
   transport_retry_policy.2.2.1 _ _ rfl,
   transport_retry_policy.2.2.2.1 _ _ 404 rfl (by decide) (by decide) (by decide)⟩

/-- C4: the request interceptor obtains the token from the registered
provider when one is set (the cache is not consulted), and from the
token cache otherwise; a non-null token is attached as a Bearer
Authorization header; a null token leaves the request unchanged and
unauthenticated, with no error. -/
theorem request_token_attachment :
    (∀ (res cache cache' : Api.TokenResult) (cfg : Api.ReqConfig),
        Api.requestInterceptor (some res) cache cfg =
          Api.requestInterceptor (some res) cache' cfg) ∧
    (∀ (t : String) (cache : Api.TokenResult) (cfg : Api.ReqConfig),
        Api.requestInterceptor (some (Except.ok (some t))) cache cfg =
          ({ cfg with authHeader := some ("Bearer " ++ t) }, false)) ∧
    (∀ (t : String) (cfg : Api.ReqConfig),
        Api.requestInterceptor none (Except.ok (some t)) cfg =
          ({ cfg with authHeader := some ("Bearer " ++ t) }, false)) ∧
    (∀ (cache : Api.TokenResult) (cfg : Api.ReqConfig),
        Api.requestInterceptor (some (Except.ok none)) cache cfg = (cfg, false)) ∧
    (∀ (cfg : Api.ReqConfig),
        Api.requestInterceptor none (Except.ok none) cfg = (cfg, false)) := by
  refine ⟨?_, ?_, ?_, ?_, ?_⟩ <;> intros <;> rfl

/-- C10: if obtaining the token throws (from the provider, or from the
cache fallback), the request interceptor catches and logs the error and
returns the config unchanged, so the request is still sent and no
Authorization header is added by the interceptor. -/
theorem token_acquisition_error_swallowed :
    (∀ (cache : Api.TokenResult) (cfg : Api.ReqConfig),
        Api.requestInterceptor (some (Except.error ())) cache cfg = (cfg, true)) ∧
    (∀ (cfg : Api.ReqConfig),
        Api.requestInterceptor none (Except.error ()) cfg = (cfg, true)) := by
  exact ⟨fun _ _ => rfl, fun _ => rfl⟩

/-- Every performSync invocation makes at least one underlying call. -/
theorem performSyncAux_attempts_pos (backend : Nat → Bool) (rc f : Nat) :
    1 ≤ (SyncManager.performSyncAux backend rc f).attempts := by
  unfold SyncManager.performSyncAux
  split
  · simp
  · cases f <;> simp

/-- A performSync invocation with fuel f makes at most f + 1 underlying
calls. -/
theorem performSyncAux_attempts_le (backend : Nat → Bool) (f : Nat) :
    ∀ rc, (SyncManager.performSyncAux backend rc f).attempts ≤ f + 1 := by
  induction f with
  | zero =>
      intro rc
      unfold SyncManager.performSyncAux
      split <;> simp
  | succ f ih =>
      intro rc
      unfold SyncManager.performSyncAux
      split
      · simp
      · have h := ih (rc + 1)
        simp only []
        simp
        omega

/-- Counterexample to C5 as stated: with a backend that always fails,
one sync cycle performs 4 underlying progress-update calls (one initial
attempt plus MAX_SYNC_RETRIES = 3 retries), not at most 3. -/
theorem sync_attempt_count_counterexample :
    ¬ ((SyncManager.performSync (fun _ => false) 0).attempts ≤ 3) := by
  decide

/-- C5 amended: a single sync cycle performs at most 4 attempts (one
initial attempt plus up to 3 retries) of the underlying progress-update
call, with a linear backoff delay between attempts equal to the base
delay times the attempt number; and if the backend fails twice and then
succeeds, the cycle resolves successfully after exactly 3 attempts with
increasing delays and never marks the client offline. -/
theorem sync_retry_attempts_amended :
    (∀ backend : Nat → Bool, (SyncManager.performSync backend 0).attempts ≤ 4) ∧
    (∀ backend : Nat → Bool,
        (SyncManager.performSync backend 0).delays =
          (List.range ((SyncManager.performSync backend 0).attempts - 1)).map
            (fun i => SyncManager.SYNC_RETRY_DELAY_MS * (i + 1))) ∧
    SyncManager.performSync (fun n => decide (2 ≤ n)) 0 =
      { threw := false, attempts := 3, delays := [1000, 2000], setOffline := false } := by
  refine ⟨?_, ?_, by decide⟩
  · intro backend
    exact performSyncAux_attempts_le backend 3 0
  · intro backend
    cases hb0 : backend 0 <;> cases hb1 : backend 1 <;>
      cases hb2 : backend 2 <;> cases hb3 : backend 3 <;>
      simp [SyncManager.performSync, SyncManager.performSyncAux,
            SyncManager.SYNC_RETRY_DELAY_MS, SyncManager.MAX_SYNC_RETRIES,
            hb0, hb1, hb2, hb3, List.range_succ]

/-- C6: after a sync cycle exhausts its internal retries the online
flag becomes false (and 4 calls were made exhausting the retries);
while the flag is false every sync trigger returns with zero network
calls and unchanged state; and setOnlineStatus true from offline runs
one immediate sync attempt, performing at least one network call. -/
theorem offline_transition_and_recovery :
    (∀ (backend : Nat → Bool) (s : SyncManager.SMState),
        s.syncInProgress = false → s.isOnline = true → (∀ n, backend n = false) →
        SyncManager.syncUserProgress backend s =
          Except.ok { state := { syncInProgress := false, isOnline := false }, calls := 4 }) ∧
    (∀ (backend : Nat → Bool) (s : SyncManager.SMState), s.isOnline = false →
        SyncManager.syncUserProgress backend s = Except.ok { state := s, calls := 0 }) ∧
    (∀ (backend : Nat → Bool) (s : SyncManager.SMState), s.isOnline = false →
        SyncManager.setOnlineStatus backend true s =
          SyncManager.syncUserProgress backend { s with isOnline := true }) ∧
    (∀ (backend : Nat → Bool) (s : SyncManager.SMState),
        s.isOnline = false → s.syncInProgress = false →
        ∃ r, SyncManager.setOnlineStatus backend true s = Except.ok r ∧ 1 ≤ r.calls) := by
  refine ⟨?_, ?_, ?_, ?_⟩
  · intro backend s h1 h2 h3
    simp [SyncManager.syncUserProgress, h1, h2, SyncManager.performSync,
          SyncManager.performSyncAux, SyncManager.MAX_SYNC_RETRIES, h3]
  · intro backend s h
    by_cases hp : s.syncInProgress = true
    · simp [SyncManager.syncUserProgress, hp]
    · simp [SyncManager.syncUserProgress, hp, h]
  · intro backend s h
    simp [SyncManager.setOnlineStatus, h]
  · intro backend s h1 h2
    cases hoff : (SyncManager.performSync backend 0).setOffline with
    | true =>
        refine ⟨{ state := { syncInProgress := false, isOnline := false },
                  calls := (SyncManager.performSync backend 0).attempts }, ?_, ?_⟩
        · simp [SyncManager.setOnlineStatus, SyncManager.syncUserProgress, h1, h2, hoff]
        · exact performSyncAux_attempts_pos backend 0 3
    | false =>
        refine ⟨{ state := { syncInProgress := false, isOnline := true },
                  calls := (SyncManager.performSync backend 0).attempts }, ?_, ?_⟩
        · simp [SyncManager.setOnlineStatus, SyncManager.syncUserProgress, h1, h2, hoff]
        · exact performSyncAux_attempts_pos backend 0 3

/-- Witness for C6 at concrete states: an always-failing backend takes
an online idle manager offline after 4 calls, and an offline manager
skips a sync trigger entirely. -/
theorem offline_transition_and_recovery_witness :
    SyncManager.syncUserProgress (fun _ => false)
        { syncInProgress := false, isOnline := true } =
      Except.ok { state := { syncInProgress := false, isOnline := false }, calls := 4 } ∧
    SyncManager.syncUserProgress (fun _ => true)
        { syncInProgress := false, isOnline := false } =
      Except.ok { state := { syncInProgress := false, isOnline := false }, calls := 0 } :=
  ⟨offline_transition_and_recovery.1 _ _ rfl rfl (fun _ => rfl),
   offline_transition_and_recovery.2.1 _ _ rfl⟩

/-- C7: a sync trigger while the inProgress guard is set is a no-op:
it returns at once with no network call and unchanged state, so at most
one sync cycle executes at a time. -/
theorem sync_in_progress_guard :
    ∀ (backend : Nat → Bool) (s : SyncManager.SMState), s.syncInProgress = true →
      SyncManager.syncUserProgress backend s = Except.ok { state := s, calls := 0 } := by
  intro backend s h
  simp [SyncManager.syncUserProgress, h]

/-- Witness for C7 at a concrete in-progress state. -/
theorem sync_in_progress_guard_witness :
    SyncManager.syncUserProgress (fun _ => true)
        { syncInProgress := true, isOnline := true } =
      Except.ok { state := { syncInProgress := true, isOnline := true }, calls := 0 } :=
  sync_in_progress_guard _ _ rfl

/-- C8: for every backend behavior and every starting state the
top-level sync operation resolves (returns ok, never an error), even
though the inner performSync can itself reject after exhausting
retries. -/
theorem sync_failures_swallowed :
    (∀ (backend : Nat → Bool) (s : SyncManager.SMState),
        ∃ r, SyncManager.syncUserProgress backend s = Except.ok r) ∧
    (SyncManager.performSync (fun _ => false) 0).threw = true := by
  refine ⟨?_, by decide⟩
  intro backend s
  by_cases h1 : s.syncInProgress = true
  · have h : SyncManager.syncUserProgress backend s =
        Except.ok { state := s, calls := 0 } := by
      simp [SyncManager.syncUserProgress, h1]
    exact ⟨_, h⟩
  · by_cases h2 : s.isOnline = false
    · have h : SyncManager.syncUserProgress backend s =
          Except.ok { state := s, calls := 0 } := by
        simp [SyncManager.syncUserProgress, h1, h2]
      exact ⟨_, h⟩
    · have h : SyncManager.syncUserProgress backend s =
          Except.ok { state := { syncInProgress := false,
                                 isOnline := !(SyncManager.performSync backend 0).setOffline },
                      calls := (SyncManager.performSync backend 0).attempts } := by
        simp [SyncManager.syncUserProgress, h1, h2]
      exact ⟨_, h⟩

/-- drainLoop attempts exactly the entries of the queue, in order, and
logs exactly the failing ones, in order. -/
theorem drainLoop_spec (net : SyncManager.QueueEntry → Bool)
    (q : List SyncManager.QueueEntry) :
    SyncManager.drainLoop net q = (q, q.filter (fun a => !net a)) := by
  induction q with
  | nil => rfl
  | cons a rest ih =>
      cases hn : net a <;> simp [SyncManager.drainLoop, ih, hn, List.filter_cons]

/-- C9: drain attempts each persisted entry's network call in append
(FIFO) order; a failing entry is logged and does not abort the
remaining entries; and after every entry has been attempted the
persisted queue is cleared unconditionally. -/
theorem drain_is_fifo_logs_failures_and_clears :
    ∀ (net : SyncManager.QueueEntry → Bool) (q : List SyncManager.QueueEntry),
      (SyncManager.processOfflineQueue net (some q)).1 = none ∧
      (SyncManager.processOfflineQueue net (some q)).2.1 = q ∧
      (SyncManager.processOfflineQueue net (some q)).2.2 = q.filter (fun a => !net a) := by
  intro net q
  simp [SyncManager.processOfflineQueue, drainLoop_spec]
